import Mathlib

/-!
# EduManager — verification of the ID-allocation subsystem

Shallow embedding of the server (`src/unnamed/part_000`, the revision that
introduces the `Counter` collection): the atomic sequence-counter allocator
`getNextSequenceValue`, the student-creation retry loop of
`app.post('/api/students')`, the delete / counter-reclamation logic of
`app.delete('/api/students/:id')`, the update handler
`app.put('/api/students/:id')` and the dashboard statistics of
`app.get('/api/stats')`.

The MongoDB `counters` collection keys its documents by `_id` (the sequence
name), so the database itself enforces at most one document per name; it is
therefore modelled exactly as a partial map `String → Option Nat` from
sequence name to `sequence_value`.  Students are modelled as a list of
documents carrying the store-assigned primary key `mongoId` (`_id`) and the
allocated `studentId`.  The outcome of each `student.save()` call depends on
database index state outside the program (including the stale unique indexes
the source comments describe), so the creation handler is parametrised by an
environment `outcomes : Nat → SaveOutcome` giving the result of the save
attempted at each loop iteration.
-/

namespace EduManager

/-- The `counters` collection: `_id` (sequence name) ↦ `sequence_value`.
`none` means no counter document with that `_id` exists. -/
def Counters : Type := String → Option Nat

/-- Source constant `INITIAL_ID_VALUE = 0` in `getNextSequenceValue`. -/
def INITIAL_ID_VALUE : Nat := 0

/-- First step of `getNextSequenceValue`:
`Counter.findOneAndUpdate({_id: sequenceName}, {$setOnInsert: {sequence_value: 0}}, {upsert: true, ...})` —
if no document exists, create one with `sequence_value = INITIAL_ID_VALUE`;
if one exists, `$setOnInsert` changes nothing. -/
def ensureInitialized (σ : Counters) (name : String) : Counters :=
  fun k => if k = name then some ((σ name).getD INITIAL_ID_VALUE) else σ k

/-- Helper: the counter store with the document for `name` holding value `v`. -/
def withCounter (σ : Counters) (name : String) (v : Nat) : Counters :=
  fun k => if k = name then some v else σ k

/-- Models `getNextSequenceValue(sequenceName)`: upsert-initialize the counter, then
`Counter.findByIdAndUpdate(sequenceName, {$inc: {sequence_value: 1}}, {new: true})`
and return the post-increment `sequence_value`. -/
def getNextSequenceValue (σ : Counters) (name : String) : Nat × Counters :=
  let σ1 := ensureInitialized σ name
  let newVal := (σ1 name).getD 0 + 1
  (newVal, fun k => if k = name then some newVal else σ1 k)

/-- The counter reset performed by the delete handler when the collection
becomes empty: `Counter.findOneAndUpdate({_id: 'studentId'}, {sequence_value: v}, {new: true})`
— no `upsert`, so a missing counter document stays missing. -/
def resetCounter (σ : Counters) (name : String) (v : Nat) : Counters :=
  fun k => if k = name then (σ name).map (fun _ => v) else σ k

/-- A student document as persisted: store-assigned `_id` (`mongoId`), the
allocated `studentId`, and the domain fields.  `enrollmentDate` keeps the
raw payload string (the `new Date(...)` parse is not modelled). -/
structure StudentDoc where
  mongoId : Nat
  studentId : Nat
  name : String
  email : String
  course : String
  enrollmentDate : String
  status : String
deriving Repr, DecidableEq

/-- A course document (only what `/api/stats` reads). -/
structure CourseDoc where
  name : String
  description : String
  duration : Nat
  status : String
deriving Repr, DecidableEq

/-! Section: Dashboard stats — `app.get('/api/stats')` -/

/-- Models `Math.round` on a non-negative number: round half up. -/
def jsRound (q : ℚ) : Nat := ⌊q + 1/2⌋₊

structure StatsResp where
  totalStudents : Nat
  activeCourses : Nat
  graduates : Nat
  successRate : Nat
deriving Repr, DecidableEq

/-- Models `app.get` on `/api/stats`: counts and
`successRate = totalStudents > 0 ? Math.round((graduates / totalStudents) * 100) : 0`. -/
def getStats (students : List StudentDoc) (courses : List CourseDoc) : StatsResp :=
  let totalStudents := students.length
  let activeCourses := (courses.filter (fun c => c.status = "Active")).length
  let graduates := (students.filter (fun s => s.status = "Inactive")).length
  let successRate :=
    if totalStudents > 0 then jsRound (((graduates : ℚ) / (totalStudents : ℚ)) * 100) else 0
  ⟨totalStudents, activeCourses, graduates, successRate⟩

/-! Section: Student creation — `app.post('/api/students')` -/

/-- The request body of a create/update call.  `none` models an absent
property; JS falsiness for these string fields also covers `""`. -/
structure CreateBody where
  name : Option String
  email : Option String
  course : Option String
  enrollmentDate : Option String
  status : Option String
deriving Repr, DecidableEq

/-- JS falsiness of an optional string field: absent or empty. -/
def strFalsy : Option String → Bool
  | none => true
  | some s => s = ""

/-- Models `if (!name || !email || !course || !enrollmentDate)` — the basic
validation at the top of the create and update handlers. -/
def validBody (b : CreateBody) : Bool :=
  !(strFalsy b.name || strFalsy b.email || strFalsy b.course || strFalsy b.enrollmentDate)

/-- The document built by `new Student({...})` in the create handler:
`name.trim()`, `email.trim().toLowerCase()`, `course.trim()`, the raw
enrollment-date payload, and `status || 'Active'`.  `fk` is the
store-assigned `_id` of the new document. -/
def mkStudentDoc (fk : Nat) (b : CreateBody) (id : Nat) : StudentDoc :=
  { mongoId := fk
    studentId := id
    name := (b.name.getD "").trim
    email := (b.email.getD "").trim.toLower
    course := (b.course.getD "").trim
    enrollmentDate := b.enrollmentDate.getD ""
    status := if strFalsy b.status then "Active" else b.status.getD "" }

/-- The outcome of one `student.save()` call, determined by database state
outside the program (unique indexes, including stale ones).
`dup kp` is an E11000 duplicate-key error whose `keyPattern` names the
fields in `kp`; `err m` is any non-11000 error with message `m`. -/
inductive SaveOutcome where
  | ok
  | dup (kp : List String)
  | err (m : String)
deriving Repr, DecidableEq

/-- Source constant `MAX_RETRIES = 5`. -/
def MAX_RETRIES : Nat := 5

/-- Message of the error thrown when the last attempt still collides on the ID. -/
def exhaustMsg : String :=
  "Failed to generate a unique Student ID after multiple retries."

/-- Message of the error thrown on a duplicate-email conflict. -/
def dupEmailMsg : String :=
  "A duplicate email was found by an unexpected database index. Please restart the application to clear the index."

/-- Validation message sent with status 400 when required fields are missing. -/
def requiredMsg : String := "Name, email, course, and enrollment date are required"

/-- The `res.status(500)` body emitted if the retry loop falls through. -/
def loopFellMsg : String := "Internal server error during student creation."

/-- Whether the character list `pat` occurs at the head of `s`. -/
def leadMatch : List Char → List Char → Bool
  | [], _ => true
  | _ :: _, [] => false
  | a :: as, b :: bs => a = b && leadMatch as bs

/-- Whether the character list `pat` occurs anywhere in `s`. -/
def subMatch (pat : List Char) : List Char → Bool
  | [] => pat.isEmpty
  | c :: rest => leadMatch pat (c :: rest) || subMatch pat rest

/-- Models the JS substring test `s.includes(pat)`. -/
def includesStr (s pat : String) : Bool := subMatch pat.data s.data

/-- How the retry loop exits: a successful save, a thrown error (its
message), or completing all iterations without returning or throwing. -/
inductive LoopExit where
  | success (s : StudentDoc)
  | thrown (m : String)
  | fellThrough
deriving Repr, DecidableEq

/-- The body of `for (let attempt = 0; attempt < MAX_RETRIES; attempt++)`
in the create handler, iterating over the remaining attempt indices.
Each iteration allocates an ID via `getNextSequenceValue('studentId')` and
attempts `student.save()` (its outcome given by `outcomes attempt`):
* success returns the student (`res.status(201)`);
* an E11000 whose `keyPattern` has `studentId` retries, except at the last
  attempt (`attempt === MAX_RETRIES - 1`) where it throws `exhaustMsg`;
* otherwise an E11000 whose `keyPattern` has `email` throws `dupEmailMsg`;
* any other E11000 falls through to the next iteration;
* a non-11000 error is re-thrown. -/
def createAttempts (outcomes : Nat → SaveOutcome) (mk : Nat → StudentDoc) :
    List Nat → Counters → LoopExit × Counters
  | [], σ => (.fellThrough, σ)
  | attempt :: rest, σ =>
    let r := getNextSequenceValue σ "studentId"
    match outcomes attempt with
    | .ok => (.success (mk r.1), r.2)
    | .dup kp =>
      if kp.contains "studentId" then
        if attempt = MAX_RETRIES - 1 then (.thrown exhaustMsg, r.2)
        else createAttempts outcomes mk rest r.2
      else if kp.contains "email" then (.thrown dupEmailMsg, r.2)
      else createAttempts outcomes mk rest r.2
    | .err m => (.thrown m, r.2)

/-- The HTTP response of the create handler. -/
inductive CreateResp where
  | created (s : StudentDoc)
  | badRequest (m : String)
  | serverError (m : String)
deriving Repr, DecidableEq

/-- The HTTP status code carried by a create response. -/
def CreateResp.statusCode : CreateResp → Nat
  | .created _ => 201
  | .badRequest _ => 400
  | .serverError _ => 500

/-- The outer `catch` of the create handler: a message containing
`'A duplicate email was found'` gets 400, one containing
`'unique Student ID'` gets 500, anything else 400. -/
def catchCreate (m : String) : CreateResp :=
  if includesStr m "A duplicate email was found" then .badRequest m
  else if includesStr m "unique Student ID" then .serverError m
  else .badRequest m

/-- Models `app.post` on `/api/students`: validation, then the retry loop over
attempts `0, …, MAX_RETRIES - 1`, then the response mapping.  Returns the
response, the student collection after the call, and the counter store
after the call. -/
def postStudent (outcomes : Nat → SaveOutcome) (fk : Nat) (b : CreateBody)
    (db : List StudentDoc) (σ : Counters) : CreateResp × List StudentDoc × Counters :=
  if validBody b then
    match createAttempts outcomes (mkStudentDoc fk b) (List.range MAX_RETRIES) σ with
    | (.success s, σ1) => (.created s, db ++ [s], σ1)
    | (.thrown m, σ1) => (catchCreate m, db, σ1)
    | (.fellThrough, σ1) => (.serverError loopFellMsg, db, σ1)
  else (.badRequest requiredMsg, db, σ)

/-! Section: Student deletion — `app.delete('/api/students/:id')` -/

/-- The HTTP response of the delete handler. -/
inductive DeleteResp where
  | ok
  | notFound
deriving Repr, DecidableEq

/-- The HTTP status code of a delete response (200 via `res.json`, 404 via
`res.status(404)`). -/
def DeleteResp.statusCode : DeleteResp → Nat
  | .ok => 200
  | .notFound => 404

/-- Models `Student.findByIdAndDelete(id)`: remove the document whose `_id`
matches, returning it (MongoDB `_id` is unique, so at most one matches). -/
def findByIdAndDelete : List StudentDoc → Nat → Option StudentDoc × List StudentDoc
  | [], _ => (none, [])
  | s :: rest, id =>
    if s.mongoId = id then (some s, rest)
    else
      let r := findByIdAndDelete rest id
      (r.1, s :: r.2)

/-- Models the delete route handler: delete by `_id`; 404 if absent;
otherwise count the remaining students and, if the count is 0, reset the
`'studentId'` counter document's `sequence_value` to 0. -/
def deleteStudent (db : List StudentDoc) (σ : Counters) (id : Nat) :
    DeleteResp × List StudentDoc × Counters :=
  match findByIdAndDelete db id with
  | (none, db1) => (.notFound, db1, σ)
  | (some _, db1) =>
    let remainingStudents := db1.length
    if remainingStudents = 0 then (.ok, db1, resetCounter σ "studentId" 0)
    else (.ok, db1, σ)

/-! Section: Student update — `app.put('/api/students/:id')` -/

/-- The `updateData` object of the update handler applied to a stored
document: only `name`, `email`, `course`, `enrollmentDate` and `status`
are written; `studentId` (and `_id`) are not part of the update. -/
def applyUpdate (b : CreateBody) (s : StudentDoc) : StudentDoc :=
  { s with
    name := (b.name.getD "").trim
    email := (b.email.getD "").trim.toLower
    course := (b.course.getD "").trim
    enrollmentDate := b.enrollmentDate.getD ""
    status := if strFalsy b.status then "Active" else b.status.getD "" }

/-- The HTTP response of the update handler. -/
inductive PutResp where
  | updated (s : StudentDoc)
  | badRequest (m : String)
  | notFound
deriving Repr, DecidableEq

/-- Models the update route handler: validation, then
`Student.findByIdAndUpdate(id, updateData, {new: true})`; 404 when no
document matches.  Returns the response and the collection after the call. -/
def putStudent (db : List StudentDoc) (id : Nat) (b : CreateBody) :
    PutResp × List StudentDoc :=
  if validBody b then
    match (db.find? (fun s => s.mongoId = id)) with
    | none => (.notFound, db)
    | some s =>
      (.updated (applyUpdate b s),
       db.map (fun t => if t.mongoId = id then applyUpdate b t else t))
  else (.badRequest requiredMsg, db)

/-! Section: Iterated allocation (for the monotonicity property) -/

/-- The values returned by `n` consecutive `getNextSequenceValue` calls on
the same name with no intervening reset, together with the final store. -/
def runNextIds (σ : Counters) (name : String) : Nat → List Nat × Counters
  | 0 => ([], σ)
  | n + 1 =>
    let r := getNextSequenceValue σ name
    let rest := runNextIds r.2 name n
    (r.1 :: rest.1, rest.2)

/-- A save outcome that is an E11000 implicating the `studentId` field
(the retried kind of conflict). -/
def idDupOutcome : SaveOutcome → Bool
  | .dup kp => kp.contains "studentId"
  | _ => false

/-! Section: Concrete inputs used by witnesses and counterexamples -/

/-- The counter store before any allocation: no counter document exists. -/
def emptyCounters : Counters := fun _ => none

/-- A well-formed request body. -/
def okBody : CreateBody :=
  { name := some "Ada", email := some "ada@example.com", course := some "CS",
    enrollmentDate := some "2024-01-01", status := none }

/-- A second well-formed request body. -/
def okBody2 : CreateBody :=
  { name := some "Bob", email := some "bob@example.com", course := some "Math",
    enrollmentDate := some "2024-02-01", status := some "Inactive" }

/-- A stored student with `_id = 1`, `studentId = 1`. -/
def scenStu1 : StudentDoc :=
  { mongoId := 1, studentId := 1, name := "Ada", email := "ada@example.com",
    course := "CS", enrollmentDate := "2024-01-01", status := "Active" }

/-- A stored student with `_id = 2`, `studentId = 2`. -/
def scenStu2 : StudentDoc :=
  { mongoId := 2, studentId := 2, name := "Bob", email := "bob@example.com",
    course := "Math", enrollmentDate := "2024-02-01", status := "Inactive" }

/-- The counter store after the two allocations of the §8 scenario. -/
def scenCounters : Counters := (runNextIds emptyCounters "studentId" 2).2

/-- Save environment where the first attempt hits an E11000 on a field that
is neither `studentId` nor `email` and every later attempt succeeds. -/
def cexOutcomes : Nat → SaveOutcome := fun i => if i = 0 then .dup ["name"] else .ok

/-- Save environment where every attempt collides on `studentId`. -/
def allIdDupOutcomes : Nat → SaveOutcome := fun _ => .dup ["studentId"]

/-- Save environment where the first two attempts collide on `studentId`
and the third succeeds. -/
def twoDupOutcomes : Nat → SaveOutcome := fun i => if i < 2 then .dup ["studentId"] else .ok

/-- Save environment where the first attempt hits an E11000 on `email`. -/
def emailDupOutcomes : Nat → SaveOutcome := fun i => if i = 0 then .dup ["email"] else .ok

/-! Section: Basic lemmas about the counter store -/

theorem withCounter_apply_self (σ : Counters) (name : String) (v : Nat) :
    withCounter σ name v name = some v := by
  simp [withCounter]

theorem withCounter_apply_ne (σ : Counters) (name k : String) (v : Nat) (h : k ≠ name) :
    withCounter σ name v k = σ k := by
  simp [withCounter, h]

theorem withCounter_getD (σ : Counters) (name : String) (v : Nat) :
    (withCounter σ name v name).getD 0 = v := by
  simp [withCounter]

theorem withCounter_withCounter (σ : Counters) (name : String) (v w : Nat) :
    withCounter (withCounter σ name v) name w = withCounter σ name w := by
  funext k
  by_cases h : k = name <;> simp [withCounter, h]

theorem getNext_eq (σ : Counters) (name : String) :
    getNextSequenceValue σ name =
      ((σ name).getD 0 + 1, withCounter σ name ((σ name).getD 0 + 1)) := by
  have h1 : (getNextSequenceValue σ name).1 = (σ name).getD 0 + 1 := by
    simp [getNextSequenceValue, ensureInitialized, INITIAL_ID_VALUE]
  have h2 : (getNextSequenceValue σ name).2 = withCounter σ name ((σ name).getD 0 + 1) := by
    funext k
    by_cases h : k = name <;>
      simp [getNextSequenceValue, ensureInitialized, withCounter, INITIAL_ID_VALUE, h]
  calc getNextSequenceValue σ name
      = ((getNextSequenceValue σ name).1, (getNextSequenceValue σ name).2) := rfl
    _ = _ := by rw [h1, h2]

theorem getNext_withCounter (σ : Counters) (name : String) (v : Nat) :
    getNextSequenceValue (withCounter σ name v) name = (v + 1, withCounter σ name (v + 1)) := by
  rw [getNext_eq, withCounter_getD, withCounter_withCounter]

/-! Section: One-iteration lemmas for the creation retry loop -/

theorem idDup_elim {o : SaveOutcome} (h : idDupOutcome o = true) :
    ∃ kp, o = .dup kp ∧ kp.contains "studentId" = true := by
  cases o with
  | dup kp => exact ⟨kp, rfl, h⟩
  | ok => simp [idDupOutcome] at h
  | err m => simp [idDupOutcome] at h

theorem range_MAX : List.range MAX_RETRIES = [0, 1, 2, 3, 4] := rfl

theorem createAttempts_nil (o : Nat → SaveOutcome) (mk : Nat → StudentDoc) (σ : Counters) :
    createAttempts o mk [] σ = (.fellThrough, σ) := rfl

theorem createAttempts_cons_ok (o : Nat → SaveOutcome) (mk : Nat → StudentDoc)
    (a : Nat) (rest : List Nat) (σ : Counters) (h : o a = .ok) :
    createAttempts o mk (a :: rest) σ =
      (.success (mk ((σ "studentId").getD 0 + 1)),
       withCounter σ "studentId" ((σ "studentId").getD 0 + 1)) := by
  simp [createAttempts, h, getNext_eq]

theorem createAttempts_cons_idDup (o : Nat → SaveOutcome) (mk : Nat → StudentDoc)
    (a : Nat) (rest : List Nat) (σ : Counters) (kp : List String) (h : o a = .dup kp)
    (hid : kp.contains "studentId" = true) (hlast : a ≠ MAX_RETRIES - 1) :
    createAttempts o mk (a :: rest) σ =
      createAttempts o mk rest (withCounter σ "studentId" ((σ "studentId").getD 0 + 1)) := by
  have hid2 : "studentId" ∈ kp := by simpa using hid
  simp [createAttempts, h, hid2, hlast, getNext_eq]

theorem createAttempts_cons_idDup_last (o : Nat → SaveOutcome) (mk : Nat → StudentDoc)
    (a : Nat) (rest : List Nat) (σ : Counters) (kp : List String)
    (ha : a = MAX_RETRIES - 1) (h : o a = .dup kp) (hid : kp.contains "studentId" = true) :
    createAttempts o mk (a :: rest) σ =
      (.thrown exhaustMsg, withCounter σ "studentId" ((σ "studentId").getD 0 + 1)) := by
  subst ha
  have hid2 : "studentId" ∈ kp := by simpa using hid
  simp [createAttempts, h, hid2, getNext_eq]

theorem createAttempts_cons_emailDup (o : Nat → SaveOutcome) (mk : Nat → StudentDoc)
    (a : Nat) (rest : List Nat) (σ : Counters) (kp : List String) (h : o a = .dup kp)
    (hid : kp.contains "studentId" = false) (hem : kp.contains "email" = true) :
    createAttempts o mk (a :: rest) σ =
      (.thrown dupEmailMsg, withCounter σ "studentId" ((σ "studentId").getD 0 + 1)) := by
  have hid2 : "studentId" ∉ kp := by simpa using hid
  have hem2 : "email" ∈ kp := by simpa using hem
  simp [createAttempts, h, hid2, hem2, getNext_eq]

theorem createAttempts_cons_otherDup (o : Nat → SaveOutcome) (mk : Nat → StudentDoc)
    (a : Nat) (rest : List Nat) (σ : Counters) (kp : List String) (h : o a = .dup kp)
    (hid : kp.contains "studentId" = false) (hem : kp.contains "email" = false) :
    createAttempts o mk (a :: rest) σ =
      createAttempts o mk rest (withCounter σ "studentId" ((σ "studentId").getD 0 + 1)) := by
  have hid2 : "studentId" ∉ kp := by simpa using hid
  have hem2 : "email" ∉ kp := by simpa using hem
  simp [createAttempts, h, hid2, hem2, getNext_eq]

theorem createAttempts_cons_err (o : Nat → SaveOutcome) (mk : Nat → StudentDoc)
    (a : Nat) (rest : List Nat) (σ : Counters) (m : String) (h : o a = .err m) :
    createAttempts o mk (a :: rest) σ =
      (.thrown m, withCounter σ "studentId" ((σ "studentId").getD 0 + 1)) := by
  simp [createAttempts, h, getNext_eq]

/-! Section: Iterated allocation values -/

theorem runNextIds_values (σ : Counters) (name : String) (n : Nat) :
    (runNextIds σ name n).1 = (List.range n).map (fun i => (σ name).getD 0 + i + 1) := by
  induction n generalizing σ with
  | zero => simp [runNextIds]
  | succ n ih =>
    have h1 : (runNextIds σ name (n + 1)).1 =
        ((σ name).getD 0 + 1) ::
          (runNextIds (withCounter σ name ((σ name).getD 0 + 1)) name n).1 := by
      simp [runNextIds, getNext_eq]
    rw [h1, ih, List.range_succ_eq_map, List.map_cons, List.map_map]
    simp only [withCounter_getD]
    have hf : ((fun i => (σ name).getD 0 + i + 1) ∘ Nat.succ) =
        (fun i => (σ name).getD 0 + 1 + i + 1) := by
      funext i
      simp only [Function.comp_apply, Nat.succ_eq_add_one]
      omega
    rw [hf]

/-- C3: for every sequence name, consecutive successful
`getNextSequenceValue` calls with no intervening reset return strictly
increasing integers, and in particular never repeat a value: the list of
values produced by any number of consecutive calls is pairwise strictly
increasing and pairwise distinct. -/
theorem nextId_strictly_increasing (σ : Counters) (name : String) (n : Nat) :
    ((runNextIds σ name n).1).Pairwise (· < ·) ∧
    ((runNextIds σ name n).1).Pairwise (· ≠ ·) := by
  have h : ((runNextIds σ name n).1).Pairwise (· < ·) := by
    rw [runNextIds_values]
    exact (List.pairwise_lt_range n).map _ (fun a b hab => by omega)
  exact ⟨h, h.imp Nat.ne_of_lt⟩

/-- C4: after a reset to 0 (the counter document's `sequence_value` set
to 0), the next `getNextSequenceValue` call returns exactly 1; from an
uninitialized sequence the first two calls return 1 then 2; and in the
concrete delete-triggered scenario (two students created, then both
deleted, the second deletion resetting the counter) the next call returns
1 again. -/
theorem nextId_reset_baseline (name : String) (σ₁ σ₂ : Counters)
    (h1 : σ₁ name = some 0) (h2 : σ₂ name = none) :
    (getNextSequenceValue σ₁ name).1 = 1 ∧
    ((getNextSequenceValue σ₂ name).1 = 1 ∧
      (getNextSequenceValue (getNextSequenceValue σ₂ name).2 name).1 = 2) ∧
    ((runNextIds emptyCounters "studentId" 2).1 = [1, 2] ∧
      deleteStudent [scenStu1, scenStu2] scenCounters 1 = (.ok, [scenStu2], scenCounters) ∧
      ((deleteStudent [scenStu2] scenCounters 2).2.2) "studentId" = some 0 ∧
      (getNextSequenceValue ((deleteStudent [scenStu2] scenCounters 2).2.2) "studentId").1 = 1) := by
  refine ⟨?_, ⟨?_, ?_⟩, rfl, rfl, rfl, rfl⟩
  · simp [getNext_eq, h1]
  · simp [getNext_eq, h2]
  · simp [getNext_eq, h2, withCounter_getD]

/-- Witness for C4 at `name = "studentId"`, a counter holding 0 and an
absent counter. -/
theorem nextId_reset_baseline_witness :
    (getNextSequenceValue (withCounter emptyCounters "studentId" 0) "studentId").1 = 1 ∧
    ((getNextSequenceValue emptyCounters "studentId").1 = 1 ∧
      (getNextSequenceValue (getNextSequenceValue emptyCounters "studentId").2 "studentId").1 = 2) ∧
    ((runNextIds emptyCounters "studentId" 2).1 = [1, 2] ∧
      deleteStudent [scenStu1, scenStu2] scenCounters 1 = (.ok, [scenStu2], scenCounters) ∧
      ((deleteStudent [scenStu2] scenCounters 2).2.2) "studentId" = some 0 ∧
      (getNextSequenceValue ((deleteStudent [scenStu2] scenCounters 2).2.2) "studentId").1 = 1) :=
  nextId_reset_baseline "studentId" (withCounter emptyCounters "studentId" 0) emptyCounters
    rfl rfl

/-- C6: for every successful delete (the target `_id` is found), if no
student remains the `'studentId'` counter document's value becomes the
baseline 0, and if at least one student remains the whole counter store is
unchanged. -/
theorem delete_reclamation (db : List StudentDoc) (σ : Counters) (id v : Nat)
    (hfound : (findByIdAndDelete db id).1.isSome = true)
    (hcv : σ "studentId" = some v) :
    ((findByIdAndDelete db id).2.length = 0 →
      ((deleteStudent db σ id).2.2) "studentId" = some 0) ∧
    ((findByIdAndDelete db id).2.length ≠ 0 →
      (deleteStudent db σ id).2.2 = σ) := by
  rcases hfd : findByIdAndDelete db id with ⟨found, rest⟩
  rw [hfd] at hfound
  cases found with
  | none => simp at hfound
  | some s =>
    constructor
    · intro hlen
      simp only [] at hlen
      simp [deleteStudent, hfd, hlen, resetCounter, hcv]
    · intro hlen
      simp only [] at hlen
      simp [deleteStudent, hfd, hlen]

/-- Witness for C6: deleting the last student resets the counter to 0. -/
theorem delete_reclamation_witness :
    ((deleteStudent [scenStu2] scenCounters 2).2.2) "studentId" = some 0 :=
  (delete_reclamation [scenStu2] scenCounters 2 2 rfl rfl).1 rfl

/-- C7: the sequence-initialization upsert is idempotent: if the
counter document for `name` exists with value `v` it is left exactly as it
was (every key of the store unchanged); if it does not exist, it is
created with value 0, no other key is touched, and re-running the
initialization changes nothing further. -/
theorem ensureInitialized_idempotent (name : String) (σ₁ σ₂ : Counters) (v : Nat)
    (h1 : σ₁ name = some v) (h2 : σ₂ name = none) :
    (∀ k, ensureInitialized σ₁ name k = σ₁ k) ∧
    (ensureInitialized σ₂ name) name = some 0 ∧
    (∀ k, k ≠ name → (ensureInitialized σ₂ name) k = σ₂ k) ∧
    (∀ k, ensureInitialized (ensureInitialized σ₂ name) name k = ensureInitialized σ₂ name k) := by
  refine ⟨?_, ?_, ?_, ?_⟩
  · intro k
    by_cases h : k = name
    · subst h
      simp [ensureInitialized, h1, INITIAL_ID_VALUE]
    · simp [ensureInitialized, h]
  · simp [ensureInitialized, h2, INITIAL_ID_VALUE]
  · intro k h
    simp [ensureInitialized, h]
  · intro k
    by_cases h : k = name
    · subst h
      simp [ensureInitialized, h2, INITIAL_ID_VALUE]
    · simp [ensureInitialized, h]

/-- Witness for C7 at `name = "studentId"`, an existing counter holding 2
and an empty store, sampled at the keys `"studentId"` and `"courseId"`. -/
theorem ensureInitialized_idempotent_witness :
    ensureInitialized (withCounter emptyCounters "studentId" 2) "studentId" "studentId" =
      withCounter emptyCounters "studentId" 2 "studentId" ∧
    (ensureInitialized emptyCounters "studentId") "studentId" = some 0 ∧
    (ensureInitialized emptyCounters "studentId") "courseId" = emptyCounters "courseId" ∧
    ensureInitialized (ensureInitialized emptyCounters "studentId") "studentId" "studentId" =
      ensureInitialized emptyCounters "studentId" "studentId" :=
  ⟨(ensureInitialized_idempotent "studentId" (withCounter emptyCounters "studentId" 2)
      emptyCounters 2 rfl rfl).1 "studentId",
   (ensureInitialized_idempotent "studentId" (withCounter emptyCounters "studentId" 2)
      emptyCounters 2 rfl rfl).2.1,
   (ensureInitialized_idempotent "studentId" (withCounter emptyCounters "studentId" 2)
      emptyCounters 2 rfl rfl).2.2.1 "courseId" (by decide),
   (ensureInitialized_idempotent "studentId" (withCounter emptyCounters "studentId" 2)
      emptyCounters 2 rfl rfl).2.2.2 "studentId"⟩

theorem findByIdAndDelete_none (db : List StudentDoc) (id : Nat)
    (h : ∀ s ∈ db, s.mongoId ≠ id) : findByIdAndDelete db id = (none, db) := by
  induction db with
  | nil => rfl
  | cons s rest ih =>
    have hs : s.mongoId ≠ id := h s (List.mem_cons_self s rest)
    have hr : findByIdAndDelete rest id = (none, rest) :=
      ih (fun t ht => h t (List.mem_cons_of_mem s ht))
    simp [findByIdAndDelete, hs, hr]

/-- C8: a delete request whose target `_id` matches no student fails
with a 404 not-found response, and neither the student collection nor the
counter store (in particular the `'studentId'` counter) is modified. -/
theorem delete_not_found (db : List StudentDoc) (σ : Counters) (id : Nat)
    (h : ∀ s ∈ db, s.mongoId ≠ id) :
    deleteStudent db σ id = (.notFound, db, σ) ∧
    (deleteStudent db σ id).1.statusCode = 404 := by
  have hfd := findByIdAndDelete_none db id h
  constructor
  · simp [deleteStudent, hfd]
  · simp [deleteStudent, hfd, DeleteResp.statusCode]

/-- Witness for C8: deleting `_id = 99` from a one-student collection. -/
theorem delete_not_found_witness :
    deleteStudent [scenStu1] scenCounters 99 = (.notFound, [scenStu1], scenCounters) ∧
    (deleteStudent [scenStu1] scenCounters 99).1.statusCode = 404 :=
  delete_not_found [scenStu1] scenCounters 99 (by decide)

/-- C9: the update payload written by the PUT handler contains only
`name`, `email`, `course`, `enrollmentDate` and `status`, so for every
update request (successful or not) every stored student keeps its
`studentId` (and its storage key): `studentId` is immutable at the public
interface. -/
theorem put_preserves_studentId (db : List StudentDoc) (id : Nat) (b : CreateBody) :
    (∀ s, (applyUpdate b s).studentId = s.studentId ∧ (applyUpdate b s).mongoId = s.mongoId) ∧
    ((putStudent db id b).2).map (fun s => (s.mongoId, s.studentId)) =
      db.map (fun s => (s.mongoId, s.studentId)) := by
  refine ⟨fun s => ⟨rfl, rfl⟩, ?_⟩
  by_cases hv : validBody b
  · cases hf : db.find? (fun s => s.mongoId = id) with
    | none => simp [putStudent, hv, hf]
    | some t =>
      simp only [putStudent, hv, if_true, hf, List.map_map]
      have hfun : ((fun s => (s.mongoId, s.studentId)) ∘
          (fun u => if u.mongoId = id then applyUpdate b u else u)) =
          (fun s : StudentDoc => (s.mongoId, s.studentId)) := by
        funext u
        by_cases h : u.mongoId = id <;> simp [h, applyUpdate]
      rw [hfun]
  · simp [putStudent, hv]

/-- C10: the dashboard stats computation is total: with no students
the success rate is 0 (the division is guarded); with students it equals
the half-up rounding of `graduates / totalStudents * 100` and always lies
between 0 and 100. -/
theorem stats_successRate_total (students : List StudentDoc) (courses : List CourseDoc) :
    (students.length = 0 → (getStats students courses).successRate = 0) ∧
    (students.length > 0 →
      (getStats students courses).successRate =
        jsRound ((((students.filter (fun s => s.status = "Inactive")).length : ℚ) /
          (students.length : ℚ)) * 100)) ∧
    (getStats students courses).successRate ≤ 100 := by
  refine ⟨?_, ?_, ?_⟩
  · intro h
    simp [getStats, h]
  · intro h
    simp [getStats, h]
  · by_cases h : students.length = 0
    · simp [getStats, h]
    · have ht : 0 < students.length := Nat.pos_of_ne_zero h
      have hg : (students.filter (fun s => s.status = "Inactive")).length ≤ students.length :=
        List.length_filter_le _ _
      have hq : (((students.filter (fun s => s.status = "Inactive")).length : ℚ) /
          (students.length : ℚ)) ≤ 1 := by
        rw [div_le_one (by exact_mod_cast ht)]
        exact_mod_cast hg
      have hle : (((students.filter (fun s => s.status = "Inactive")).length : ℚ) /
          (students.length : ℚ)) * 100 + 1 / 2 ≤ 201 / 2 := by
        nlinarith
      have hfl : jsRound ((((students.filter (fun s => s.status = "Inactive")).length : ℚ) /
          (students.length : ℚ)) * 100) ≤ ⌊(201 / 2 : ℚ)⌋₊ :=
        Nat.floor_le_floor hle
      have h100 : ⌊(201 / 2 : ℚ)⌋₊ = 100 := by
        rw [Nat.floor_eq_iff (by norm_num)]
        norm_num
      simp only [getStats, if_pos ht]
      calc jsRound ((((students.filter (fun s => s.status = "Inactive")).length : ℚ) /
            (students.length : ℚ)) * 100) ≤ ⌊(201 / 2 : ℚ)⌋₊ := hfl
        _ = 100 := h100

/-- Witness for C10 on a two-student collection (one `Inactive`). -/
theorem stats_successRate_total_witness :
    (getStats [scenStu1, scenStu2] []).successRate =
      jsRound (((([scenStu1, scenStu2].filter
        (fun s => s.status = "Inactive")).length : ℚ) /
        (([scenStu1, scenStu2] : List StudentDoc).length : ℚ)) * 100) ∧
    (getStats [scenStu1, scenStu2] []).successRate ≤ 100 :=
  ⟨(stats_successRate_total [scenStu1, scenStu2] []).2.1 (by decide),
   (stats_successRate_total [scenStu1, scenStu2] []).2.2⟩

/-- C5: if the first `k < MAX_RETRIES` save attempts fail with an
ID-uniqueness conflict on `studentId` and the `(k+1)`th succeeds, the
create handler responds 201 with the persisted student (carrying the ID
allocated at attempt `k`) and the caller observes no error. -/
theorem create_retry_transparency (outcomes : Nat → SaveOutcome) (fk : Nat) (b : CreateBody)
    (db : List StudentDoc) (σ : Counters) (k : Nat)
    (hvalid : validBody b = true) (hk : k < MAX_RETRIES)
    (hfail : ∀ i, i < k → idDupOutcome (outcomes i) = true)
    (hsucc : outcomes k = .ok) :
    (postStudent outcomes fk b db σ).1 =
      .created (mkStudentDoc fk b ((σ "studentId").getD 0 + (k + 1))) ∧
    (postStudent outcomes fk b db σ).1.statusCode = 201 ∧
    (postStudent outcomes fk b db σ).2.1 =
      db ++ [mkStudentDoc fk b ((σ "studentId").getD 0 + (k + 1))] := by
  have hloop : createAttempts outcomes (mkStudentDoc fk b) (List.range MAX_RETRIES) σ =
      (.success (mkStudentDoc fk b ((σ "studentId").getD 0 + (k + 1))),
       withCounter σ "studentId" ((σ "studentId").getD 0 + (k + 1))) := by
    rw [range_MAX]
    have hk5 : k < 5 := hk
    interval_cases k
    · rw [createAttempts_cons_ok _ _ _ _ _ hsucc]
    · obtain ⟨kp0, ho0, hc0⟩ := idDup_elim (hfail 0 (by omega))
      rw [createAttempts_cons_idDup _ _ _ _ _ _ ho0 hc0 (by decide),
          createAttempts_cons_ok _ _ _ _ _ hsucc]
      simp only [withCounter_getD, withCounter_withCounter]
    · obtain ⟨kp0, ho0, hc0⟩ := idDup_elim (hfail 0 (by omega))
      obtain ⟨kp1, ho1, hc1⟩ := idDup_elim (hfail 1 (by omega))
      rw [createAttempts_cons_idDup _ _ _ _ _ _ ho0 hc0 (by decide),
          createAttempts_cons_idDup _ _ _ _ _ _ ho1 hc1 (by decide),
          createAttempts_cons_ok _ _ _ _ _ hsucc]
      simp only [withCounter_getD, withCounter_withCounter]
    · obtain ⟨kp0, ho0, hc0⟩ := idDup_elim (hfail 0 (by omega))
      obtain ⟨kp1, ho1, hc1⟩ := idDup_elim (hfail 1 (by omega))
      obtain ⟨kp2, ho2, hc2⟩ := idDup_elim (hfail 2 (by omega))
      rw [createAttempts_cons_idDup _ _ _ _ _ _ ho0 hc0 (by decide),
          createAttempts_cons_idDup _ _ _ _ _ _ ho1 hc1 (by decide),
          createAttempts_cons_idDup _ _ _ _ _ _ ho2 hc2 (by decide),
          createAttempts_cons_ok _ _ _ _ _ hsucc]
      simp only [withCounter_getD, withCounter_withCounter]
    · obtain ⟨kp0, ho0, hc0⟩ := idDup_elim (hfail 0 (by omega))
      obtain ⟨kp1, ho1, hc1⟩ := idDup_elim (hfail 1 (by omega))
      obtain ⟨kp2, ho2, hc2⟩ := idDup_elim (hfail 2 (by omega))
      obtain ⟨kp3, ho3, hc3⟩ := idDup_elim (hfail 3 (by omega))
      rw [createAttempts_cons_idDup _ _ _ _ _ _ ho0 hc0 (by decide),
          createAttempts_cons_idDup _ _ _ _ _ _ ho1 hc1 (by decide),
          createAttempts_cons_idDup _ _ _ _ _ _ ho2 hc2 (by decide),
          createAttempts_cons_idDup _ _ _ _ _ _ ho3 hc3 (by decide),
          createAttempts_cons_ok _ _ _ _ _ hsucc]
      simp only [withCounter_getD, withCounter_withCounter]
  have hpost : postStudent outcomes fk b db σ =
      (.created (mkStudentDoc fk b ((σ "studentId").getD 0 + (k + 1))),
       db ++ [mkStudentDoc fk b ((σ "studentId").getD 0 + (k + 1))],
       withCounter σ "studentId" ((σ "studentId").getD 0 + (k + 1))) := by
    simp only [postStudent, hvalid, if_true]
    rw [hloop]
  rw [hpost]
  exact ⟨rfl, rfl, rfl⟩

/-- Witness for C5 with `k = 2`: two `studentId` collisions, then success. -/
theorem create_retry_transparency_witness :
    (postStudent twoDupOutcomes 1 okBody [] emptyCounters).1 =
      .created (mkStudentDoc 1 okBody ((emptyCounters "studentId").getD 0 + (2 + 1))) ∧
    (postStudent twoDupOutcomes 1 okBody [] emptyCounters).1.statusCode = 201 ∧
    (postStudent twoDupOutcomes 1 okBody [] emptyCounters).2.1 =
      [] ++ [mkStudentDoc 1 okBody ((emptyCounters "studentId").getD 0 + (2 + 1))] :=
  create_retry_transparency twoDupOutcomes 1 okBody [] emptyCounters 2 (by decide)
    (by decide) (fun i hi => by interval_cases i <;> rfl) rfl

/-- C1: if all `MAX_RETRIES` save attempts fail with an ID-uniqueness
conflict on `studentId`, the create handler fails with the allocation-
exhausted error (`exhaustMsg`), responds with status 500, and no student
is persisted. -/
theorem create_exhaustion (outcomes : Nat → SaveOutcome) (fk : Nat) (b : CreateBody)
    (db : List StudentDoc) (σ : Counters)
    (hvalid : validBody b = true)
    (hfail : ∀ i, i < MAX_RETRIES → idDupOutcome (outcomes i) = true) :
    (postStudent outcomes fk b db σ).1 = .serverError exhaustMsg ∧
    (postStudent outcomes fk b db σ).1.statusCode = 500 ∧
    (postStudent outcomes fk b db σ).2.1 = db := by
  have hloop : createAttempts outcomes (mkStudentDoc fk b) (List.range MAX_RETRIES) σ =
      (.thrown exhaustMsg, withCounter σ "studentId" ((σ "studentId").getD 0 + 5)) := by
    rw [range_MAX]
    obtain ⟨kp0, ho0, hc0⟩ := idDup_elim (hfail 0 (by decide))
    obtain ⟨kp1, ho1, hc1⟩ := idDup_elim (hfail 1 (by decide))
    obtain ⟨kp2, ho2, hc2⟩ := idDup_elim (hfail 2 (by decide))
    obtain ⟨kp3, ho3, hc3⟩ := idDup_elim (hfail 3 (by decide))
    obtain ⟨kp4, ho4, hc4⟩ := idDup_elim (hfail 4 (by decide))
    rw [createAttempts_cons_idDup _ _ _ _ _ _ ho0 hc0 (by decide),
        createAttempts_cons_idDup _ _ _ _ _ _ ho1 hc1 (by decide),
        createAttempts_cons_idDup _ _ _ _ _ _ ho2 hc2 (by decide),
        createAttempts_cons_idDup _ _ _ _ _ _ ho3 hc3 (by decide),
        createAttempts_cons_idDup_last _ _ _ _ _ _ (by decide) ho4 hc4]
    simp only [withCounter_getD, withCounter_withCounter]
  have hpost : postStudent outcomes fk b db σ =
      (catchCreate exhaustMsg, db, withCounter σ "studentId" ((σ "studentId").getD 0 + 5)) := by
    simp only [postStudent, hvalid, if_true]
    rw [hloop]
  have hcatch : catchCreate exhaustMsg = .serverError exhaustMsg := by decide
  rw [hpost, hcatch]
  exact ⟨rfl, rfl, rfl⟩

/-- Witness for C1: every attempt collides on `studentId`. -/
theorem create_exhaustion_witness :
    (postStudent allIdDupOutcomes 1 okBody [] emptyCounters).1 = .serverError exhaustMsg ∧
    (postStudent allIdDupOutcomes 1 okBody [] emptyCounters).1.statusCode = 500 ∧
    (postStudent allIdDupOutcomes 1 okBody [] emptyCounters).2.1 = [] :=
  create_exhaustion allIdDupOutcomes 1 okBody [] emptyCounters (by decide)
    (fun i _ => rfl)

/-- C2 counterexample: with a first-attempt uniqueness conflict on the
field `name` (neither `studentId` nor `email`), the create handler does
NOT abort: it retries, allocates a second ID (counter reaches 2) and
responds 201 — refuting the claim that a conflict on any non-`studentId`
field aborts immediately with an error and no further retry. -/
theorem create_nonid_conflict_cex :
    (postStudent cexOutcomes 7 okBody [] emptyCounters).1.statusCode = 201 ∧
    ((postStudent cexOutcomes 7 okBody [] emptyCounters).2.2) "studentId" = some 2 :=
  ⟨rfl, rfl⟩

/-- C2 amended: for every create attempt that fails with a
uniqueness conflict whose conflicting field is `email` (and not the
allocated `studentId`), the handler aborts immediately with the
distinguishable duplicate-email error (status 400), persists nothing, and
performs no further retry iteration: exactly the `k + 1` IDs of the
attempts so far are allocated and no further save is attempted.
(Conflicts on non-ID fields other than `email` are instead retried like
ID collisions, as the counterexample shows.) -/
theorem create_email_conflict_aborts (outcomes : Nat → SaveOutcome) (fk : Nat)
    (b : CreateBody) (db : List StudentDoc) (σ : Counters) (k : Nat) (kp : List String)
    (hvalid : validBody b = true) (hk : k < MAX_RETRIES)
    (hfirst : ∀ i, i < k → idDupOutcome (outcomes i) = true)
    (hkout : outcomes k = .dup kp)
    (hnoId : kp.contains "studentId" = false)
    (hEmail : kp.contains "email" = true) :
    (postStudent outcomes fk b db σ).1 = .badRequest dupEmailMsg ∧
    (postStudent outcomes fk b db σ).1.statusCode = 400 ∧
    (postStudent outcomes fk b db σ).2.1 = db ∧
    ((postStudent outcomes fk b db σ).2.2) "studentId" =
      some ((σ "studentId").getD 0 + (k + 1)) := by
  have hloop : createAttempts outcomes (mkStudentDoc fk b) (List.range MAX_RETRIES) σ =
      (.thrown dupEmailMsg, withCounter σ "studentId" ((σ "studentId").getD 0 + (k + 1))) := by
    rw [range_MAX]
    have hk5 : k < 5 := hk
    interval_cases k
    · rw [createAttempts_cons_emailDup _ _ _ _ _ _ hkout hnoId hEmail]
    · obtain ⟨kp0, ho0, hc0⟩ := idDup_elim (hfirst 0 (by omega))
      rw [createAttempts_cons_idDup _ _ _ _ _ _ ho0 hc0 (by decide),
          createAttempts_cons_emailDup _ _ _ _ _ _ hkout hnoId hEmail]
      simp only [withCounter_getD, withCounter_withCounter]
    · obtain ⟨kp0, ho0, hc0⟩ := idDup_elim (hfirst 0 (by omega))
      obtain ⟨kp1, ho1, hc1⟩ := idDup_elim (hfirst 1 (by omega))
      rw [createAttempts_cons_idDup _ _ _ _ _ _ ho0 hc0 (by decide),
          createAttempts_cons_idDup _ _ _ _ _ _ ho1 hc1 (by decide),
          createAttempts_cons_emailDup _ _ _ _ _ _ hkout hnoId hEmail]
      simp only [withCounter_getD, withCounter_withCounter]
    · obtain ⟨kp0, ho0, hc0⟩ := idDup_elim (hfirst 0 (by omega))
      obtain ⟨kp1, ho1, hc1⟩ := idDup_elim (hfirst 1 (by omega))
      obtain ⟨kp2, ho2, hc2⟩ := idDup_elim (hfirst 2 (by omega))
      rw [createAttempts_cons_idDup _ _ _ _ _ _ ho0 hc0 (by decide),
          createAttempts_cons_idDup _ _ _ _ _ _ ho1 hc1 (by decide),
          createAttempts_cons_idDup _ _ _ _ _ _ ho2 hc2 (by decide),
          createAttempts_cons_emailDup _ _ _ _ _ _ hkout hnoId hEmail]
      simp only [withCounter_getD, withCounter_withCounter]
    · obtain ⟨kp0, ho0, hc0⟩ := idDup_elim (hfirst 0 (by omega))
      obtain ⟨kp1, ho1, hc1⟩ := idDup_elim (hfirst 1 (by omega))
      obtain ⟨kp2, ho2, hc2⟩ := idDup_elim (hfirst 2 (by omega))
      obtain ⟨kp3, ho3, hc3⟩ := idDup_elim (hfirst 3 (by omega))
      rw [createAttempts_cons_idDup _ _ _ _ _ _ ho0 hc0 (by decide),
          createAttempts_cons_idDup _ _ _ _ _ _ ho1 hc1 (by decide),
          createAttempts_cons_idDup _ _ _ _ _ _ ho2 hc2 (by decide),
          createAttempts_cons_idDup _ _ _ _ _ _ ho3 hc3 (by decide),
          createAttempts_cons_emailDup _ _ _ _ _ _ hkout hnoId hEmail]
      simp only [withCounter_getD, withCounter_withCounter]
  have hpost : postStudent outcomes fk b db σ =
      (catchCreate dupEmailMsg, db,
       withCounter σ "studentId" ((σ "studentId").getD 0 + (k + 1))) := by
    simp only [postStudent, hvalid, if_true]
    rw [hloop]
  have hcatch : catchCreate dupEmailMsg = .badRequest dupEmailMsg := by decide
  rw [hpost, hcatch]
  exact ⟨rfl, rfl, rfl, withCounter_apply_self σ "studentId" _⟩

/-- Witness for the amended C2: an `email` conflict at the first attempt. -/
theorem create_email_conflict_aborts_witness :
    (postStudent emailDupOutcomes 1 okBody [] emptyCounters).1 = .badRequest dupEmailMsg ∧
    (postStudent emailDupOutcomes 1 okBody [] emptyCounters).1.statusCode = 400 ∧
    (postStudent emailDupOutcomes 1 okBody [] emptyCounters).2.1 = [] ∧
    ((postStudent emailDupOutcomes 1 okBody [] emptyCounters).2.2) "studentId" =
      some ((emptyCounters "studentId").getD 0 + (0 + 1)) :=
  create_email_conflict_aborts emailDupOutcomes 1 okBody [] emptyCounters 0 ["email"]
    (by decide) (by decide) (fun i hi => absurd hi (Nat.not_lt_zero i)) rfl rfl rfl

end EduManager
